import Mathlib

/-
Verification development for the tweet-viewer annotation app
(src/streamlit_app.py).  The Python source is shallowly embedded below:
pure fragments become Lean functions, the Streamlit script body becomes an
explicit step function on a session-state record, Python exceptions that
the script swallows become `Option`/branching, and the one exception the
script does not guard (comparing timezone-aware with timezone-naive
datetimes while sorting) becomes an `Except.error` result.
-/

namespace TweetViewer

/-! ### Python `datetime` model

A `datetime.datetime` value is modelled by its calendar fields plus an
optional UTC offset in minutes (`none` = naive, `some o` = aware; CPython
stores `tzinfo` the same way for fixed-offset zones).  The modelled subset
has no microseconds: the app's parsers are only applied to second-level
strings, and `datetime.min` has zero microseconds. -/

structure PyDatetime where
  year : Nat
  month : Nat
  day : Nat
  hour : Nat
  minute : Nat
  second : Nat
  tzOffsetMinutes : Option Int
  deriving DecidableEq

/-- `datetime.min` = 0001-01-01T00:00:00, timezone-naive. -/
def datetimeMin : PyDatetime :=
  { year := 1, month := 1, day := 1, hour := 0, minute := 0, second := 0,
    tzOffsetMinutes := none }

/-- Gregorian leap-year rule, as in CPython's `datetime` module. -/
def isLeap (y : Nat) : Bool :=
  (y % 4 == 0 && y % 100 != 0) || y % 400 == 0

/-- Number of days in month `m` (1-12) of a (non-)leap year. -/
def monthDays (leap : Bool) (m : Nat) : Nat :=
  if m = 2 then (if leap then 29 else 28)
  else if m = 4 ∨ m = 6 ∨ m = 9 ∨ m = 11 then 30
  else 31

/-- Days in the given year strictly before month `m`. -/
def daysBeforeMonth (leap : Bool) : Nat → Nat
  | 0 => 0
  | 1 => 0
  | m + 2 => daysBeforeMonth leap (m + 1) + monthDays leap (m + 1)

/-- Days strictly before January 1st of year `y` (proleptic Gregorian),
CPython's `_days_before_year`. -/
def daysBeforeYear (y : Nat) : Nat :=
  let n := y - 1
  n * 365 + n / 4 - n / 100 + n / 400

/-- Ordinal day number of the date part (0 for 0001-01-01). -/
def dateOrdinal (d : PyDatetime) : Nat :=
  daysBeforeYear d.year + daysBeforeMonth (isLeap d.year) d.month + (d.day - 1)

/-- Seconds of the naive (wall-clock) part since 0001-01-01T00:00:00.
For valid calendar dates this is strictly monotone in the
field-lexicographic order that CPython uses to compare naive datetimes. -/
def naiveSeconds (d : PyDatetime) : Nat :=
  ((dateOrdinal d * 24 + d.hour) * 60 + d.minute) * 60 + d.second

/-- Comparison key: UTC-adjusted seconds.  CPython compares two aware
datetimes by their UTC instants and two naive datetimes field-by-field;
both agree with comparing `dtSortKey` when the two operands are uniformly
aware or uniformly naive. -/
def dtSortKey (d : PyDatetime) : Int :=
  (naiveSeconds d : Int) - 60 * d.tzOffsetMinutes.getD 0

/-- `true` iff the datetime carries a UTC offset (timezone-aware). -/
def isAware (d : PyDatetime) : Bool :=
  d.tzOffsetMinutes.isSome

/-- A calendar date CPython's `datetime` constructor accepts. -/
def validDate (y mo d : Nat) : Bool :=
  1 ≤ y && y ≤ 9999 && 1 ≤ mo && mo ≤ 12 && 1 ≤ d && d ≤ monthDays (isLeap y) mo

/-! ### Character-level parsing helpers -/

/-- Value of a decimal digit character, if it is one. -/
def getDigit (c : Char) : Option Nat :=
  if c.isDigit then some (c.toNat - 48) else none

/-- Consume exactly two decimal digits. -/
def parse2 : List Char → Option (Nat × List Char)
  | a :: b :: rest => do
    let x ← getDigit a
    let y ← getDigit b
    some (x * 10 + y, rest)
  | _ => none

/-- Consume exactly four decimal digits. -/
def parse4 : List Char → Option (Nat × List Char)
  | a :: b :: c :: d :: rest => do
    let x ← getDigit a
    let y ← getDigit b
    let z ← getDigit c
    let w ← getDigit d
    some (((x * 10 + y) * 10 + z) * 10 + w, rest)
  | _ => none

/-- Consume one or (greedily) two decimal digits, as `strptime`'s
`%m`/`%d` patterns do. -/
def parse12 : List Char → Option (Nat × List Char)
  | [] => none
  | c :: rest =>
    match getDigit c with
    | none => none
    | some x =>
      match rest with
      | d :: rest2 =>
        match getDigit d with
        | some y => some (x * 10 + y, rest2)
        | none => some (x, rest)
      | [] => some (x, [])

/-- Consume one expected character. -/
def expectChar (c : Char) : List Char → Option (List Char)
  | [] => none
  | x :: t => if x = c then some t else none

/-! ### `datetime.fromisoformat`

Modelled subset of the CPython grammar, covering the shapes the app feeds
it: `YYYY-MM-DD`, optionally followed by any one separator character and
`HH[:MM[:SS]]`, optionally followed by a fixed offset `+HH:MM`/`-HH:MM`.
Fractional seconds and offset seconds are omitted from the model. -/

/-- Time-of-day part `HH[:MM[:SS]]`. -/
def parseTime (cs : List Char) : Option (Nat × Nat × Nat × List Char) := do
  let (h, r1) ← parse2 cs
  match r1 with
  | ':' :: r2 => do
    let (mi, r3) ← parse2 r2
    match r3 with
    | ':' :: r4 => do
      let (sec, r5) ← parse2 r4
      some (h, mi, sec, r5)
    | _ => some (h, mi, 0, r3)
  | _ => some (h, 0, 0, r1)

/-- Optional trailing UTC offset `±HH:MM`; `some none` means "no offset,
naive", `some (some o)` an offset of `o` minutes. -/
def parseOffset (cs : List Char) : Option (Option Int) :=
  match cs with
  | [] => some none
  | c :: r1 =>
    if c = '+' ∨ c = '-' then
      match parse2 r1 with
      | none => none
      | some (oh, r2) =>
        match expectChar ':' r2 with
        | none => none
        | some r3 =>
          match parse2 r3 with
          | none => none
          | some (om, r4) =>
            if r4 = [] ∧ oh ≤ 23 ∧ om ≤ 59 then
              some (some (if c = '+' then (oh * 60 + om : Int) else -(oh * 60 + om : Int)))
            else none
    else none

/-- `datetime.fromisoformat` on the modelled subset. -/
def fromisoformat (s : String) : Option PyDatetime := do
  let (y, r1) ← parse4 s.toList
  let r2 ← expectChar '-' r1
  let (mo, r3) ← parse2 r2
  let r4 ← expectChar '-' r3
  let (d, r5) ← parse2 r4
  if validDate y mo d then
    match r5 with
    | [] =>
      some { year := y, month := mo, day := d, hour := 0, minute := 0, second := 0,
             tzOffsetMinutes := none }
    | _ :: r6 => do
      let (h, mi, sec, r7) ← parseTime r6
      if h ≤ 23 ∧ mi ≤ 59 ∧ sec ≤ 59 then
        let off ← parseOffset r7
        some { year := y, month := mo, day := d, hour := h, minute := mi, second := sec,
               tzOffsetMinutes := off }
      else none
  else none

/-- `datetime.strptime(s, "%Y/%m/%d")`: four-digit year, one-or-two digit
month and day, nothing left over, and a valid calendar date (always
naive, midnight). -/
def strptimeYMD (s : String) : Option PyDatetime := do
  let (y, r1) ← parse4 s.toList
  let r2 ← expectChar '/' r1
  let (mo, r3) ← parse12 r2
  let r4 ← expectChar '/' r3
  let (d, r5) ← parse12 r4
  if r5 = [] ∧ validDate y mo d then
    some { year := y, month := mo, day := d, hour := 0, minute := 0, second := 0,
           tzOffsetMinutes := none }
  else none

/-! ### Python string helpers used by the script -/

/-- `str.replace("Z", "+00:00")` at character level (the pattern is a
single character, so replacement is per-character). -/
def replaceZ : List Char → List Char
  | [] => []
  | c :: rest =>
    if c = 'Z' then '+' :: '0' :: '0' :: ':' :: '0' :: '0' :: replaceZ rest
    else c :: replaceZ rest

/-- `needle in hay` (Python substring containment, case-sensitive). -/
def subIn (needle : List Char) : List Char → Bool
  | [] => needle.isEmpty
  | c :: t => needle.isPrefixOf (c :: t) || subIn needle t

/-- Python's `in` operator on strings. -/
def pyIn (needle hay : String) : Bool :=
  subIn needle.toList hay.toList

/-- Characters `str.strip()` removes (the ASCII whitespace subset, which
covers the app's inputs). -/
def isPySpace (c : Char) : Bool :=
  c = ' ' || c = '\t' || c = '\n' || c = '\r' || c = '\x0b' || c = '\x0c'

/-- `str.strip()`. -/
def pyStrip (s : String) : String :=
  String.mk (((s.toList.dropWhile isPySpace).reverse.dropWhile isPySpace).reverse)

/-- `str.split("-")` at character level. -/
def splitDashChars : List Char → List (List Char)
  | [] => [[]]
  | c :: t =>
    let r := splitDashChars t
    if c = '-' then [] :: r
    else
      match r with
      | [] => [[c]]
      | h :: rt => (c :: h) :: rt

/-- `str.split("-")`. -/
def pySplitDash (s : String) : List String :=
  (splitDashChars s.toList).map String.mk

/-! ### Tweet records and `safe_parse_date` -/

/-- A tweet record; fields the script reads with `.get`, so each is
optional (absent JSON key = `none`). -/
structure Tweet where
  content : Option String
  tweetDate : Option String
  tweetUrl : Option String
  deriving DecidableEq

def defaultTweet : Tweet :=
  { content := none, tweetDate := none, tweetUrl := none }

/-- `safe_parse_date` (src/streamlit_app.py lines 19-23): replace a
trailing (in fact, every) `"Z"` with `"+00:00"`, try `fromisoformat`, and
fall back to `datetime.min` on any exception (including the
`AttributeError` when `tweetDate` is missing). -/
def safe_parse_date (t : Tweet) : PyDatetime :=
  match t.tweetDate with
  | none => datetimeMin
  | some s => (fromisoformat (String.mk (replaceZ s.toList))).getD datetimeMin

/-- `data.sort(key=safe_parse_date)` (line 25).  CPython's `list.sort` is
stable and raises `TypeError` as soon as it compares an aware key with a
naive key; for any list whose keys mix the two kinds at least one such
comparison happens, so the sort raises exactly on mixed lists.  The
successful branch is modelled by the stable `List.insertionSort`. -/
def pySortByDate (data : List Tweet) : Except String (List Tweet) :=
  if (data.all fun t => !isAware (safe_parse_date t)) ||
     (data.all fun t => isAware (safe_parse_date t)) then
    Except.ok (List.insertionSort
      (fun a b => dtSortKey (safe_parse_date a) ≤ dtSortKey (safe_parse_date b)) data)
  else
    Except.error "TypeError: cannot compare offset-naive and offset-aware datetimes"

/-! ### Annotation store, bookmarks, filter widgets -/

/-- An annotation saved by the script (lines 136-144): all six fields are
always set, each to a string. -/
structure Ann where
  tag : String
  note : String
  content : String
  date : String
  user : String
  url : String
  deriving DecidableEq

/-- `st.session_state.annotations` is a Python dict keyed by the record
index; modelled as an association list in insertion order with unique
keys. -/
abbrev AnnStore := List (Nat × Ann)

/-- Dict lookup `annotations[i]` combined with the membership test
`i in annotations`: the first (and, keys being unique, only) entry. -/
def lookupAnn (store : AnnStore) (i : Nat) : Option Ann :=
  (store.find? fun p => p.fst == i).map Prod.snd

/-- Python dict assignment `annotations[index] = v`: update in place when
the key exists (keeping its position), otherwise append. -/
def dictInsert (store : AnnStore) (k : Nat) (v : Ann) : AnnStore :=
  if store.any fun p => p.fst == k then
    store.map fun p => if p.fst == k then (k, v) else p
  else
    store ++ [(k, v)]

/-- Bookmark toggle (lines 130-134): remove the current index from the
bookmark set if present, add it otherwise. -/
def toggleBookmark (i : Nat) (bm : Finset Nat) : Finset Nat :=
  if i ∈ bm then bm.erase i else insert i bm

/-- The sidebar widget values for one script run. -/
structure Widgets where
  tag_filter : String
  search_keyword : String
  date_range : String
  show_bookmarked : Bool

/-! ### Filter engine (lines 56-86) -/

/-- `data[i].get("content", "")` (indices produced by the engine are
always in range; `defaultTweet` is a technical default). -/
def contentOf (data : List Tweet) (i : Nat) : String :=
  ((data.getD i defaultTweet).content).getD ""

/-- Sort/filter key of record `i`. -/
def keyOf (data : List Tweet) (i : Nat) : PyDatetime :=
  safe_parse_date (data.getD i defaultTweet)

/-- Tag filter (lines 58-62): if a tag other than `"All"` is selected,
keep the indices with a saved annotation whose `tag` equals it. -/
def afterTag (n : Nat) (store : AnnStore) (tagFilter : String) : List Nat :=
  if tagFilter = "All" then List.range n
  else (List.range n).filter fun i =>
    match lookupAnn store i with
    | some a => a.tag == tagFilter
    | none => false

/-- Keyword filter (lines 64-67): a non-empty keyword keeps the indices
whose content contains it as a substring. -/
def afterKw (data : List Tweet) (l : List Nat) (kw : String) : List Nat :=
  if kw = "" then l else l.filter fun i => pyIn kw (contentOf data i)

/-- The guarded range parse (lines 69-73): the text must be non-empty and
contain `"-"`, split on `"-"` into exactly two parts, and both parts must
parse with `strptime("%Y/%m/%d")` after stripping; any failure is caught
by the bare `except` and yields `none` (predicate skipped). -/
def parseRange (s : String) : Option (PyDatetime × PyDatetime) :=
  if s ≠ "" && pyIn "-" s then
    match pySplitDash s with
    | [a, b] =>
      match strptimeYMD (pyStrip a), strptimeYMD (pyStrip b) with
      | some d1, some d2 => some (d1, d2)
      | _, _ => none
    | _ => none
  else none

/-- `true` iff every key in the candidate list is timezone-naive.  The
comparison `start_date <= safe_parse_date(data[i])` inside the list
comprehension (line 76) raises `TypeError` on the first aware key; the
bare `except` then discards the whole comprehension, so the range filter
is applied exactly when all candidate keys are naive. -/
def naiveKeys (data : List Tweet) (l : List Nat) : Bool :=
  l.all fun i => !isAware (keyOf data i)

/-- Date-range filter (lines 69-79), including both silent-skip paths:
unparseable range text, and a `TypeError` raised while comparing. -/
def afterDate (data : List Tweet) (l : List Nat) (dr : String) : List Nat :=
  match parseRange dr with
  | none => l
  | some (s, e) =>
    if naiveKeys data l then
      l.filter fun i =>
        decide (dtSortKey s ≤ dtSortKey (keyOf data i)) &&
        decide (dtSortKey (keyOf data i) ≤ dtSortKey e)
    else l

/-- Bookmark filter (lines 81-82). -/
def afterBm (l : List Nat) (bm : Finset Nat) (only : Bool) : List Nat :=
  if only then l.filter fun i => decide (i ∈ bm) else l

/-- `filtered_indices` (lines 56-82): start from all indices and apply
the four predicates in sequence. -/
def filteredIndices (data : List Tweet) (store : AnnStore) (bm : Finset Nat)
    (w : Widgets) : List Nat :=
  afterBm (afterDate data (afterKw data (afterTag data.length store w.tag_filter)
    w.search_keyword) w.date_range) bm w.show_bookmarked

/-- The range pair the engine actually applies for a given evaluation:
`none` when the text does not parse or a `TypeError` would be raised
(some candidate key is aware); `some (s, e)` when the in-range predicate
really runs. -/
def appliedRange (data : List Tweet) (store : AnnStore) (w : Widgets) :
    Option (PyDatetime × PyDatetime) :=
  match parseRange w.date_range with
  | none => none
  | some p =>
    if naiveKeys data (afterKw data (afterTag data.length store w.tag_filter)
        w.search_keyword) then some p
    else none

/-! ### Tag options for the filter UI (lines 42-45) -/

/-- `list(set(ann["tag"] for ann in annotations.values() if ann.get("tag")))`
followed by `["All"] + sorted(...)`.  Python's truthiness test drops
empty tags; the arbitrary set order is irrelevant after sorting, so the
set is modelled by `dedup` and `sorted` by the stable `insertionSort`. -/
def tagOptionsDisplayed (store : AnnStore) : List String :=
  "All" :: List.insertionSort (fun a b => a ≤ b)
    (((store.map fun p => p.snd.tag).filter fun t => t ≠ "").dedup)

/-- The options as the spec sentence describes them: the set of distinct
`tag` values present across all saved annotations (with no truthiness
filter), deduplicated, sorted, `"All"` prepended.  Kept separate from
`tagOptionsDisplayed` to compare the two. -/
def tagOptionsPerSpecSentence (store : AnnStore) : List String :=
  "All" :: List.insertionSort (fun a b => a ≤ b)
    ((store.map fun p => p.snd.tag).dedup)

/-! ### Session state and one script run -/

/-- The pieces of `st.session_state` the core logic touches. -/
structure SessionState where
  index : Nat
  annotations : AnnStore
  bookmarks : Finset Nat
  show_only_bookmarked : Bool
  deriving DecidableEq

/-- The user interaction (button press) processed by a run, if any.
`random.choice` is modelled with an oracle `k` choosing element
`k % len(F)` of the filtered list. -/
inductive UserAction where
  | noop
  | prev
  | next
  | rand (k : Nat)
  | toggleBm
  | save (tag note user : String)
  | exportAnns
  deriving DecidableEq

def isSaveAct : UserAction → Bool
  | .save _ _ _ => true
  | _ => false

def isToggleAct : UserAction → Bool
  | .toggleBm => true
  | _ => false

/-- Result of one script run. -/
structure StepResult where
  state : SessionState
  halted : Bool
  warning : Bool
  deriving DecidableEq

/-- Cursor revalidation (lines 89-90): keep the cursor when it is in the
filtered list, else reset it to the list's first element. -/
def revalidateCursor (F : List Nat) (idx : Nat) : Nat :=
  if idx ∈ F then idx else F.headD 0

/-- The annotation the save button stores (lines 136-144): tag, note and
user come from input widgets; content, date and url are copied from the
current record (`.get` defaults `"Unknown date"` and `""`). -/
def mkSavedAnn (data : List Tweet) (i : Nat) (tag note user : String) : Ann :=
  { tag := tag, note := note, content := contentOf data i,
    date := ((data.getD i defaultTweet).tweetDate).getD "Unknown date",
    user := user, url := ((data.getD i defaultTweet).tweetUrl).getD "" }

/-- One run of the script body (lines 50-161) over the session state:
set `show_only_bookmarked` from the checkbox, recompute
`filtered_indices`, stop with a warning when it is empty, revalidate the
cursor, then process the pressed button, if any.  In Nat arithmetic
`p - 1` equals the source's `max(0, p - 1)` and no `min` operand
underflows, so the clamps transcribe directly. -/
def runStep (data : List Tweet) (w : Widgets) (act : UserAction)
    (s : SessionState) : StepResult :=
  let s1 : SessionState := { s with show_only_bookmarked := w.show_bookmarked }
  let F := filteredIndices data s1.annotations s1.bookmarks w
  if F = [] then
    { state := s1, halted := true, warning := true }
  else
    let s2 := { s1 with index := revalidateCursor F s1.index }
    let ci := s2.index
    let p := F.indexOf ci
    let s3 :=
      match act with
      | .noop => s2
      | .prev => { s2 with index := F.getD (p - 1) 0 }
      | .next => { s2 with index := F.getD (min (F.length - 1) (p + 1)) 0 }
      | .rand k => { s2 with index := F.getD (k % F.length) 0 }
      | .toggleBm => { s2 with bookmarks := toggleBookmark ci s2.bookmarks }
      | .save tag note user =>
        { s2 with annotations := dictInsert s2.annotations ci (mkSavedAnn data ci tag note user) }
      | .exportAnns => s2
    { state := s3, halted := false, warning := false }

/-! ### Export and reload (lines 158-161)

`json.dump(st.session_state.annotations, f, ensure_ascii=False, indent=2)`
writes the store as a JSON object.  JSON object keys are strings, so the
integer dict keys are stringified by the serializer; `ensure_ascii=False`
writes string contents verbatim (non-ASCII unescaped).  The round trip is
modelled at the level of the JSON document tree: `exportAll` flattens the
store to the written document (stringified keys, the six string fields of
each annotation), and `reloadExport` is what `json.load` of that document
gives back, with the field dictionaries read back into `Ann` to compare
field values. -/

/-- A key of a reloaded Python dict: `json.load` can only produce string
keys, while the in-memory store uses `int` keys. -/
inductive PyKey where
  | kint (n : Nat)
  | kstr (s : String)
  deriving DecidableEq

/-- The six JSON fields written for one annotation. -/
def annToFields (a : Ann) : List (String × String) :=
  [("tag", a.tag), ("note", a.note), ("content", a.content),
   ("date", a.date), ("user", a.user), ("url", a.url)]

/-- Read an annotation back from its field dictionary. -/
def fieldsToAnn (fs : List (String × String)) : Option Ann := do
  let tag ← (fs.find? fun p => p.fst == "tag").map Prod.snd
  let note ← (fs.find? fun p => p.fst == "note").map Prod.snd
  let content ← (fs.find? fun p => p.fst == "content").map Prod.snd
  let date ← (fs.find? fun p => p.fst == "date").map Prod.snd
  let user ← (fs.find? fun p => p.fst == "user").map Prod.snd
  let url ← (fs.find? fun p => p.fst == "url").map Prod.snd
  some { tag := tag, note := note, content := content, date := date,
         user := user, url := url }

/-- `json.dump` of the store: a JSON object whose keys are the decimal
strings of the integer indices, in insertion order, and whose values are
the annotations' field objects. -/
def exportAll (store : AnnStore) : List (String × List (String × String)) :=
  store.map fun p => (toString p.fst, annToFields p.snd)

/-- `json.load` of an exported document: string keys, field dictionaries
interpreted back into `Ann` records. -/
def reloadExport : List (String × List (String × String)) → Option (List (PyKey × Ann))
  | [] => some []
  | p :: t =>
    match fieldsToAnn p.snd, reloadExport t with
    | some a, some r => some ((PyKey.kstr p.fst, a) :: r)
    | _, _ => none

/-- Export followed by reload. -/
def exportRoundTrip (store : AnnStore) : Option (List (PyKey × Ann)) :=
  reloadExport (exportAll store)

/-! ### Concrete inputs used by counterexamples and witnesses -/

/-- A record whose date parses to an aware datetime (trailing `"Z"`). -/
def tweetAwareZ : Tweet :=
  { content := some "a", tweetDate := some "2021-05-01T00:00:00Z", tweetUrl := none }

/-- A record whose date does not parse at all. -/
def tweetBadDate : Tweet :=
  { content := some "b", tweetDate := some "not a date", tweetUrl := none }

def tweetOne : Tweet :=
  { content := some "hello world", tweetDate := some "2021-05-01T10:00:00",
    tweetUrl := some "http://t/1" }

def tweetTwo : Tweet :=
  { content := some "second tweet", tweetDate := some "2021-05-02T10:00:00",
    tweetUrl := some "http://t/2" }

def exData : List Tweet := [tweetOne, tweetTwo]

def exAnn : Ann :=
  { tag := "grief", note := "n", content := "hello world",
    date := "2021-05-01T10:00:00", user := "u", url := "http://t/1" }

def exStore : AnnStore := [(0, exAnn)]

/-- The sidebar defaults of a fresh run (the date-range text is the
literal placeholder, which never parses). -/
def exWidgets : Widgets :=
  { tag_filter := "All", search_keyword := "",
    date_range := "YYYY/MM/DD - YYYY/MM/DD", show_bookmarked := false }

def exState : SessionState :=
  { index := 0, annotations := [], bookmarks := ∅, show_only_bookmarked := false }

/-- A session whose cursor points outside the filtered list. -/
def exStateAt5 : SessionState :=
  { index := 5, annotations := [], bookmarks := ∅, show_only_bookmarked := false }

/-- An annotation saved with an empty tag (the save action accepts any
text, including empty). -/
def emptyTagAnn : Ann :=
  { tag := "", note := "n", content := "c", date := "d", user := "u", url := "" }

def c8Store : AnnStore := [(0, emptyTagAnn)]

/-- An annotation with non-ASCII content, for the export round trip. -/
def c9Ann : Ann :=
  { tag := "حزن", note := "ملاحظة", content := "نصّ ✓", date := "2021-05-01",
    user := "someone", url := "http://t/9" }

def c9Store : AnnStore := [(0, c9Ann)]

/-- A date-range text with no `"-"` at all. -/
def wNoDash : Widgets :=
  { tag_filter := "All", search_keyword := "", date_range := "May 2021",
    show_bookmarked := false }

/-- Widgets with a range text that parses, and no other filters. -/
def c2Widgets : Widgets :=
  { tag_filter := "All", search_keyword := "",
    date_range := "2021/05/05 - 2021/05/06", show_bookmarked := false }

/-- What `strptime("2021/05/05", "%Y/%m/%d")` yields. -/
def c2RangeStart : PyDatetime :=
  { year := 2021, month := 5, day := 5, hour := 0, minute := 0, second := 0,
    tzOffsetMinutes := none }

/-- What `strptime("2021/05/06", "%Y/%m/%d")` yields. -/
def c2RangeEnd : PyDatetime :=
  { year := 2021, month := 5, day := 6, hour := 0, minute := 0, second := 0,
    tzOffsetMinutes := none }

end TweetViewer

namespace TweetViewer

/-! ### Helper lemmas -/

theorem lookupAnn_eq_some_iff (store : AnnStore) (i : Nat) (a : Ann)
    (hnd : (store.map Prod.fst).Nodup) :
    lookupAnn store i = some a ↔ (i, a) ∈ store := by
  induction store with
  | nil => simp [lookupAnn]
  | cons p t ih =>
    rcases p with ⟨k, b⟩
    simp only [List.map_cons, List.nodup_cons] at hnd
    by_cases hk : k = i
    · subst hk
      simp only [lookupAnn, List.find?_cons, beq_self_eq_true, Option.map_some',
        Option.some.injEq, List.mem_cons, Prod.mk.injEq, true_and]
      constructor
      · rintro rfl; exact Or.inl rfl
      · rintro (rfl | hmem)
        · rfl
        · exact absurd (List.mem_map.mpr ⟨(k, a), hmem, rfl⟩) hnd.1
    · have hb : ((k, b).fst == i) = false := by
        simpa using hk
      simp only [lookupAnn, List.find?_cons, hb, List.mem_cons, Prod.mk.injEq]
      rw [← lookupAnn]
      rw [ih hnd.2]
      constructor
      · exact Or.inr
      · rintro (⟨h1, _⟩ | hmem)
        · exact absurd h1.symm hk
        · exact hmem

theorem mem_afterTag (n : Nat) (store : AnnStore) (tf : String) (i : Nat)
    (hnd : (store.map Prod.fst).Nodup) :
    i ∈ afterTag n store tf ↔
      i < n ∧ (tf = "All" ∨ ∃ a, (i, a) ∈ store ∧ a.tag = tf) := by
  unfold afterTag
  by_cases h : tf = "All"
  · simp [h, List.mem_range]
  · rw [if_neg h, List.mem_filter, List.mem_range]
    refine and_congr_right fun _ => ?_
    constructor
    · intro hm
      rcases hl : lookupAnn store i with _ | a
      · rw [hl] at hm; cases hm
      · rw [hl] at hm
        exact Or.inr ⟨a, (lookupAnn_eq_some_iff _ _ _ hnd).1 hl, by simpa using hm⟩
    · rintro (rfl | ⟨a, hmem, htag⟩)
      · exact absurd rfl h
      · rw [(lookupAnn_eq_some_iff _ _ _ hnd).2 hmem]
        simpa using htag

theorem mem_afterKw (data : List Tweet) (l : List Nat) (kw : String) (i : Nat) :
    i ∈ afterKw data l kw ↔ i ∈ l ∧ (kw = "" ∨ pyIn kw (contentOf data i) = true) := by
  unfold afterKw
  by_cases h : kw = "" <;> simp [h, List.mem_filter]

theorem mem_afterBm (l : List Nat) (bm : Finset Nat) (only : Bool) (i : Nat) :
    i ∈ afterBm l bm only ↔ i ∈ l ∧ (only = true → i ∈ bm) := by
  unfold afterBm
  cases only <;> simp [List.mem_filter]

theorem afterDate_skip (data : List Tweet) (l : List Nat) (dr : String)
    (h : parseRange dr = none) : afterDate data l dr = l := by
  simp [afterDate, h]

theorem afterDate_aware (data : List Tweet) (l : List Nat) (dr : String)
    (h : naiveKeys data l = false) : afterDate data l dr = l := by
  unfold afterDate
  cases hpr : parseRange dr with
  | none => rfl
  | some p => cases p; simp [hpr, h]

theorem mem_afterDate_applied (data : List Tweet) (l : List Nat) (dr : String)
    (s e : PyDatetime) (i : Nat)
    (hpr : parseRange dr = some (s, e)) (hnk : naiveKeys data l = true) :
    i ∈ afterDate data l dr ↔
      i ∈ l ∧ dtSortKey s ≤ dtSortKey (keyOf data i) ∧
        dtSortKey (keyOf data i) ≤ dtSortKey e := by
  simp [afterDate, hpr, hnk, List.mem_filter, and_assoc]

theorem afterTag_sublist (n : Nat) (store : AnnStore) (tf : String) :
    (afterTag n store tf).Sublist (List.range n) := by
  unfold afterTag
  split
  · exact List.Sublist.refl _
  · exact List.filter_sublist _

theorem afterKw_sublist (data : List Tweet) (l : List Nat) (kw : String) :
    (afterKw data l kw).Sublist l := by
  unfold afterKw
  split
  · exact List.Sublist.refl _
  · exact List.filter_sublist _

theorem afterDate_sublist (data : List Tweet) (l : List Nat) (dr : String) :
    (afterDate data l dr).Sublist l := by
  unfold afterDate
  split
  · exact List.Sublist.refl _
  · split
    · exact List.filter_sublist _
    · exact List.Sublist.refl _

theorem afterBm_sublist (l : List Nat) (bm : Finset Nat) (only : Bool) :
    (afterBm l bm only).Sublist l := by
  unfold afterBm
  split
  · exact List.filter_sublist _
  · exact List.Sublist.refl _

theorem filteredIndices_sublist (data : List Tweet) (store : AnnStore)
    (bm : Finset Nat) (w : Widgets) :
    (filteredIndices data store bm w).Sublist (List.range data.length) :=
  ((afterBm_sublist _ _ _).trans
    ((afterDate_sublist _ _ _).trans (afterKw_sublist _ _ _))).trans
    (afterTag_sublist _ _ _)

theorem filteredIndices_sorted (data : List Tweet) (store : AnnStore)
    (bm : Finset Nat) (w : Widgets) :
    List.Sorted (· < ·) (filteredIndices data store bm w) :=
  List.Pairwise.sublist (filteredIndices_sublist data store bm w)
    (List.pairwise_lt_range data.length)

theorem parseRange_eq_none (dr : String)
    (h : pyIn "-" dr = false ∨ (pySplitDash dr).length ≠ 2 ∨
         ∃ a b, pySplitDash dr = [a, b] ∧
           (strptimeYMD (pyStrip a) = none ∨ strptimeYMD (pyStrip b) = none)) :
    parseRange dr = none := by
  unfold parseRange
  split
  case isFalse => rfl
  case isTrue hc =>
    rcases h with h | h | ⟨a, b, hsp, hp⟩
    · rw [Bool.and_eq_true] at hc
      exact absurd hc.2 (by simp [h])
    · rcases hsp : pySplitDash dr with _ | ⟨x, _ | ⟨y, _ | ⟨z, t⟩⟩⟩
      · rfl
      · rfl
      · rw [hsp] at h; simp at h
      · rfl
    · rw [hsp]
      rcases hp with hp | hp
      · rcases h2 : strptimeYMD (pyStrip b) <;> simp [hp, h2]
      · rcases h1 : strptimeYMD (pyStrip a) <;> simp [hp, h1]

theorem fieldsToAnn_annToFields (a : Ann) : fieldsToAnn (annToFields a) = some a := rfl

/-! ### Claim theorems -/

/-- C1: the claim states that comparing any two records' sort keys never
raises.  On the code this is false: `safe_parse_date` maps an unparseable
date to the timezone-naive `datetime.min` but a date with a UTC offset
(for instance a trailing `"Z"`) to a timezone-aware datetime, and CPython
raises `TypeError` when `list.sort` compares an aware key with a naive
key.  This theorem evaluates the sort on such a two-record list and shows
it reaches exactly that error, together with the two keys that clash. -/
theorem C1_mixed_key_sort_raises :
    pySortByDate [tweetAwareZ, tweetBadDate] =
      Except.error "TypeError: cannot compare offset-naive and offset-aware datetimes" ∧
    safe_parse_date tweetBadDate = datetimeMin ∧
    (safe_parse_date tweetAwareZ).tzOffsetMinutes = some 0 :=
  ⟨rfl, rfl, rfl⟩

/-- C7: `toggleBookmark i` adds `i` when absent, removes it when present,
changes no other membership, and applied twice is the identity. -/
theorem C7_toggle_bookmark (bm : Finset Nat) (i : Nat) :
    (i ∈ toggleBookmark i bm ↔ i ∉ bm) ∧
    (∀ j, j ≠ i → (j ∈ toggleBookmark i bm ↔ j ∈ bm)) ∧
    toggleBookmark i (toggleBookmark i bm) = bm := by
  by_cases h : i ∈ bm
  · refine ⟨?_, fun j hj => ?_, ?_⟩
    · simp [toggleBookmark, h]
    · simp [toggleBookmark, h, Finset.mem_erase, hj]
    · have h2 : i ∉ toggleBookmark i bm := by simp [toggleBookmark, h]
      rw [toggleBookmark, if_neg h2, toggleBookmark, if_pos h, Finset.insert_erase h]
  · refine ⟨?_, fun j hj => ?_, ?_⟩
    · simp [toggleBookmark, h]
    · simp [toggleBookmark, h, Finset.mem_insert, hj]
    · have h2 : i ∈ toggleBookmark i bm := by simp [toggleBookmark, h]
      rw [toggleBookmark, if_pos h2, toggleBookmark, if_neg h, Finset.erase_insert h]

/-- C7 witness: the toggle theorem applied at the concrete set `{1}` and
index `0`. -/
theorem C7_toggle_bookmark_witness :
    (2 ∈ toggleBookmark 0 {1} ↔ 2 ∈ ({1} : Finset Nat)) ∧
    toggleBookmark 0 (toggleBookmark 0 {1}) = {1} :=
  ⟨(C7_toggle_bookmark {1} 0).2.1 2 (by decide), (C7_toggle_bookmark {1} 0).2.2⟩

/-- C8 counterexample: the claim says the offered options are the set of
distinct tag values present across all saved annotations; the code
additionally drops falsy (empty) tags, so for a store holding one
annotation whose tag is the empty string the two lists differ. -/
theorem C8_empty_tag_counterexample :
    tagOptionsDisplayed c8Store ≠ tagOptionsPerSpecSentence c8Store := by
  decide

/-- C8 (amended: distinct NON-EMPTY tag values): the options list is
`"All"` followed by a lexicographically sorted, duplicate-free list
containing exactly the non-empty tag values of the saved annotations. -/
theorem C8_tag_options_characterization (store : AnnStore) :
    ∃ rest, tagOptionsDisplayed store = "All" :: rest ∧
      List.Sorted (· ≤ ·) rest ∧ rest.Nodup ∧
      ∀ t, t ∈ rest ↔ t ≠ "" ∧ ∃ p ∈ store, p.snd.tag = t := by
  refine ⟨_, rfl, List.sorted_insertionSort _ _, ?_, fun t => ?_⟩
  · exact ((List.perm_insertionSort _ _).nodup_iff).mpr (List.nodup_dedup _)
  · rw [List.mem_insertionSort, List.mem_dedup, List.mem_filter]
    simp only [List.mem_map, decide_eq_true_eq]
    constructor
    · rintro ⟨⟨p, hp, rfl⟩, hne⟩
      exact ⟨hne, p, hp, rfl⟩
    · rintro ⟨hne, p, hp, rfl⟩
      exact ⟨⟨p, hp, rfl⟩, hne⟩

/-- C9 counterexample: the claim says export-then-reload yields a
structurally identical mapping with the same keys; in fact `json.dump`
stringifies the integer dict keys (JSON object keys are strings), so the
reloaded mapping's key is the string `"0"`, not the integer `0`. -/
theorem C9_reload_key_counterexample :
    exportRoundTrip c9Store ≠ some [(PyKey.kint 0, c9Ann)] := by
  decide

/-- C9 (amended: keys come back as decimal strings): export followed by
reload succeeds and yields the store with each integer key replaced by
its decimal-string form, all six field values (Unicode included) carried
over verbatim, and the entry order preserved. -/
theorem C9_round_trip_stringified_keys (store : AnnStore) :
    exportRoundTrip store =
      some (store.map fun p => (PyKey.kstr (toString p.fst), p.snd)) := by
  induction store with
  | nil => rfl
  | cons p t ih =>
    rcases p with ⟨k, a⟩
    simp only [exportRoundTrip, exportAll, List.map_cons] at ih ⊢
    rw [reloadExport, fieldsToAnn_annToFields, ih]

/-- C2 counterexample: the claim reads "(date-range applied) implies the
record's parsed tweetDate lies within [start, end] inclusive", where
applied means the range text parses.  That is false of the code: when a
candidate record's parsed date is timezone-aware, the comparison
`start_date <= safe_parse_date(data[i])` inside the comprehension raises
`TypeError`, the bare `except` swallows it, and the predicate is silently
skipped even though the text parsed.  Concretely: one `"Z"`-dated record
and the parseable range text `"2021/05/05 - 2021/05/06"` — the text
parses, yet the engine returns index 0 whose timestamp (2021-05-01) lies
outside the range, because its key is aware. -/
theorem C2_aware_range_counterexample :
    parseRange c2Widgets.date_range = some (c2RangeStart, c2RangeEnd) ∧
    isAware (keyOf [tweetAwareZ] 0) = true ∧
    filteredIndices [tweetAwareZ] [] ∅ c2Widgets = [0] ∧
    ¬(dtSortKey c2RangeStart ≤ dtSortKey (keyOf [tweetAwareZ] 0) ∧
      dtSortKey (keyOf [tweetAwareZ] 0) ≤ dtSortKey c2RangeEnd) := by
  decide

/-- C2 (amended: the date-range predicate is applied only when the range
text parses AND every candidate record's parsed date is timezone-naive;
an aware date makes the in-comprehension comparison raise `TypeError`,
which the bare `except` swallows, skipping the predicate for that
evaluation): the filter engine returns exactly the indices, in ascending
original order, satisfying the conjunction of the enabled predicates:
tag equality on an existing annotation (case-sensitive, disabled by
`"All"`), case-sensitive substring containment of a non-empty keyword,
membership in the applied date range (inclusive; `appliedRange` is `none`
whenever the range is not actually applied, including the aware-key skip),
and bookmark membership when bookmark-only mode is on; each disabled
predicate filters out nothing.  The `hnd` hypothesis records that a
Python dict cannot hold duplicate keys. -/
theorem C2_filter_engine_conjunction (data : List Tweet) (store : AnnStore)
    (bm : Finset Nat) (w : Widgets) (hnd : (store.map Prod.fst).Nodup) :
    List.Sorted (· < ·) (filteredIndices data store bm w) ∧
    ∀ i, i ∈ filteredIndices data store bm w ↔
      i < data.length ∧
      (w.tag_filter = "All" ∨ ∃ a, (i, a) ∈ store ∧ a.tag = w.tag_filter) ∧
      (w.search_keyword = "" ∨ pyIn w.search_keyword (contentOf data i) = true) ∧
      (∀ s e, appliedRange data store w = some (s, e) →
        dtSortKey s ≤ dtSortKey (keyOf data i) ∧ dtSortKey (keyOf data i) ≤ dtSortKey e) ∧
      (w.show_bookmarked = true → i ∈ bm) := by
  refine ⟨filteredIndices_sorted data store bm w, fun i => ?_⟩
  unfold filteredIndices
  cases hpr : parseRange w.date_range with
  | none =>
    have hap : appliedRange data store w = none := by simp [appliedRange, hpr]
    rw [afterDate_skip _ _ _ hpr, mem_afterBm, mem_afterKw,
      mem_afterTag _ _ _ _ hnd, hap]
    constructor
    · rintro ⟨⟨⟨h1, h2⟩, h3⟩, h4⟩
      exact ⟨h1, h2, h3, fun s e h => Option.noConfusion h, h4⟩
    · rintro ⟨h1, h2, h3, _, h4⟩
      exact ⟨⟨⟨h1, h2⟩, h3⟩, h4⟩
  | some pr =>
    rcases pr with ⟨ps, pe⟩
    by_cases hnk : naiveKeys data
        (afterKw data (afterTag data.length store w.tag_filter) w.search_keyword) = true
    · have hap : appliedRange data store w = some (ps, pe) := by
        simp [appliedRange, hpr, hnk]
      rw [mem_afterBm, mem_afterDate_applied _ _ _ _ _ _ hpr hnk, mem_afterKw,
        mem_afterTag _ _ _ _ hnd, hap]
      constructor
      · rintro ⟨⟨⟨⟨h1, h2⟩, h3⟩, hr⟩, h4⟩
        refine ⟨h1, h2, h3, ?_, h4⟩
        intro s e h
        rw [Option.some_inj] at h
        obtain ⟨rfl, rfl⟩ := Prod.mk.inj h
        exact hr
      · rintro ⟨h1, h2, h3, hr, h4⟩
        exact ⟨⟨⟨⟨h1, h2⟩, h3⟩, hr ps pe rfl⟩, h4⟩
    · have hnk0 : naiveKeys data
          (afterKw data (afterTag data.length store w.tag_filter) w.search_keyword) = false := by
        simpa using hnk
      have hap : appliedRange data store w = none := by
        simp [appliedRange, hpr, hnk0]
      rw [afterDate_aware _ _ _ hnk0, mem_afterBm, mem_afterKw,
        mem_afterTag _ _ _ _ hnd, hap]
      constructor
      · rintro ⟨⟨⟨h1, h2⟩, h3⟩, h4⟩
        exact ⟨h1, h2, h3, fun s e h => Option.noConfusion h, h4⟩
      · rintro ⟨h1, h2, h3, _, h4⟩
        exact ⟨⟨⟨h1, h2⟩, h3⟩, h4⟩

/-- C2 witness: the engine output on a concrete store and default
widgets is sorted ascending. -/
theorem C2_filter_engine_conjunction_witness :
    List.Sorted (· < ·) (filteredIndices exData exStore ∅ exWidgets) :=
  (C2_filter_engine_conjunction exData exStore ∅ exWidgets (by decide)).1

/-- C3: when the range text has no `"-"`, or does not split on `"-"`
into exactly two tokens, or a token fails to parse as `"YYYY/MM/DD"`
after trimming, the date-range predicate is silently skipped: the result
is exactly what the other predicates alone produce (here: the run with
the range text emptied, which disables only that predicate), and the
engine is a total function, so no error is raised. -/
theorem C3_unparseable_range_skipped (data : List Tweet) (store : AnnStore)
    (bm : Finset Nat) (w : Widgets)
    (h : pyIn "-" w.date_range = false ∨ (pySplitDash w.date_range).length ≠ 2 ∨
         ∃ a b, pySplitDash w.date_range = [a, b] ∧
           (strptimeYMD (pyStrip a) = none ∨ strptimeYMD (pyStrip b) = none)) :
    filteredIndices data store bm w =
      filteredIndices data store bm { w with date_range := "" } := by
  have h0 : parseRange w.date_range = none := parseRange_eq_none _ h
  have h1 : parseRange "" = none := rfl
  simp [filteredIndices, afterDate_skip _ _ _ h0, afterDate_skip _ _ _ h1]

/-- C3 witness: a range text with no dash leaves the filtered list equal
to the run without a date range. -/
theorem C3_unparseable_range_skipped_witness :
    filteredIndices exData exStore ∅ wNoDash =
      filteredIndices exData exStore ∅ { wNoDash with date_range := "" } :=
  C3_unparseable_range_skipped exData exStore ∅ wNoDash (Or.inl (by decide))

/-- C4: when the filtered index list is empty the run halts with the
"no matches" warning before any record is displayed or any navigation
happens, no exception is raised (the step function is total), and the
annotations, bookmarks and cursor are left exactly as they were. -/
theorem C4_empty_filter_halts (data : List Tweet) (w : Widgets) (act : UserAction)
    (s : SessionState)
    (h : filteredIndices data s.annotations s.bookmarks w = []) :
    (runStep data w act s).halted = true ∧
    (runStep data w act s).warning = true ∧
    (runStep data w act s).state.index = s.index ∧
    (runStep data w act s).state.annotations = s.annotations ∧
    (runStep data w act s).state.bookmarks = s.bookmarks := by
  simp [runStep, h]

/-- C4 witness: an empty record list always filters to the empty list,
and a run on it halts with the warning, touching nothing. -/
theorem C4_empty_filter_halts_witness :
    (runStep [] exWidgets .noop exState).halted = true ∧
    (runStep [] exWidgets .noop exState).warning = true ∧
    (runStep [] exWidgets .noop exState).state.index = exState.index ∧
    (runStep [] exWidgets .noop exState).state.annotations = exState.annotations ∧
    (runStep [] exWidgets .noop exState).state.bookmarks = exState.bookmarks :=
  C4_empty_filter_halts [] exWidgets .noop exState (by decide)

/-- C5: whenever the filtered list `F` is non-empty, the revalidated
cursor is a member of `F`; a cursor absent from `F` is reset to `F`'s
first element, a cursor still present is left unchanged, and the script
applies exactly this revalidation before any display or navigation. -/
theorem C5_cursor_revalidated (data : List Tweet) (w : Widgets) (s : SessionState)
    (F : List Nat) (hF : F = filteredIndices data s.annotations s.bookmarks w)
    (hne : F ≠ []) :
    revalidateCursor F s.index ∈ F ∧
    (s.index ∉ F → revalidateCursor F s.index = F.headD 0) ∧
    (s.index ∈ F → revalidateCursor F s.index = s.index) ∧
    (runStep data w .noop s).state.index = revalidateCursor F s.index := by
  refine ⟨?_, fun hm => ?_, fun hm => ?_, ?_⟩
  · unfold revalidateCursor
    split
    · assumption
    · cases F with
      | nil => exact absurd rfl hne
      | cons x t => exact List.mem_cons_self x t
  · simp [revalidateCursor, hm]
  · simp [revalidateCursor, hm]
  · simp [runStep, ← hF, hne]

/-- C5 witness: a cursor at 5 with filtered list `[0, 1]` is reset to the
first element. -/
theorem C5_cursor_revalidated_witness :
    revalidateCursor [0, 1] exStateAt5.index = [0, 1].headD 0 :=
  (C5_cursor_revalidated exData exWidgets exStateAt5 [0, 1]
    (by decide) (by decide)).2.1 (by decide)

/-- C6: with a non-empty filtered list `F` and the cursor at position `p`
in `F`, the Previous button moves the cursor to `F[max(0, p-1)]` (in Nat
arithmetic `F.getD (p-1) 0`), so it is unchanged at position 0; the Next
button moves it to `F[min(len(F)-1, p+1)]`, so it is unchanged at the
last position; and both results are members of `F`. -/
theorem C6_navigation_clamps (data : List Tweet) (w : Widgets) (s : SessionState)
    (F : List Nat) (p : Nat)
    (hF : F = filteredIndices data s.annotations s.bookmarks w)
    (hmem : s.index ∈ F) (hp : p = F.indexOf s.index) :
    (runStep data w .prev s).state.index = F.getD (p - 1) 0 ∧
    (p = 0 → (runStep data w .prev s).state.index = s.index) ∧
    (runStep data w .next s).state.index = F.getD (min (F.length - 1) (p + 1)) 0 ∧
    (p = F.length - 1 → (runStep data w .next s).state.index = s.index) ∧
    (runStep data w .prev s).state.index ∈ F ∧
    (runStep data w .next s).state.index ∈ F := by
  have hne : F ≠ [] := List.ne_nil_of_mem hmem
  have hplen : p < F.length := by
    rw [hp]; exact List.indexOf_lt_length.mpr hmem
  have hgetp : F.getD p 0 = s.index := by
    subst hp
    rw [List.getD_eq_getElem _ _ hplen]
    exact List.getElem_indexOf hplen
  have hprev : (runStep data w .prev s).state.index = F.getD (p - 1) 0 := by
    simp [runStep, ← hF, hne, revalidateCursor, hmem, hp]
  have hnext : (runStep data w .next s).state.index =
      F.getD (min (F.length - 1) (p + 1)) 0 := by
    simp [runStep, ← hF, hne, revalidateCursor, hmem, hp]
  refine ⟨hprev, fun hp0 => ?_, hnext, fun hpl => ?_, ?_, ?_⟩
  · rw [hprev, (by omega : p - 1 = p), hgetp]
  · rw [hnext, (by omega : min (F.length - 1) (p + 1) = p), hgetp]
  · have hlt : p - 1 < F.length := lt_of_le_of_lt (Nat.sub_le p 1) hplen
    rw [hprev, List.getD_eq_getElem _ _ hlt]
    exact List.getElem_mem hlt
  · have hpos : 0 < F.length := List.length_pos.mpr hne
    have hlt : min (F.length - 1) (p + 1) < F.length :=
      lt_of_le_of_lt (Nat.min_le_left _ _) (Nat.sub_lt hpos Nat.one_pos)
    rw [hnext, List.getD_eq_getElem _ _ hlt]
    exact List.getElem_mem hlt

/-- C6 witness: on two concrete records with no filters, pressing
Previous at position 0 of the filtered list `[0, 1]` clamps to index 0. -/
theorem C6_navigation_clamps_witness :
    (runStep exData exWidgets .prev exState).state.index = [0, 1].getD (0 - 1) 0 :=
  (C6_navigation_clamps exData exWidgets exState [0, 1] 0
    (by decide) (by decide) (by decide)).1

/-- C10: computing the filtered index list (including the silently
skipped date-range branch) is read-only: its value depends only on the
records, annotations, bookmarks and widget values, and a run mutates the
annotation store only under an explicit save action and the bookmark set
only under an explicit bookmark-toggle action (the record list is an
immutable input that no step ever changes). -/
theorem C10_filter_evaluation_read_only (data : List Tweet) (w : Widgets)
    (act : UserAction) (s : SessionState) :
    (isSaveAct act = false → (runStep data w act s).state.annotations = s.annotations) ∧
    (isToggleAct act = false → (runStep data w act s).state.bookmarks = s.bookmarks) ∧
    (∀ s2 : SessionState, s2.annotations = s.annotations → s2.bookmarks = s.bookmarks →
      filteredIndices data s2.annotations s2.bookmarks w =
        filteredIndices data s.annotations s.bookmarks w) := by
  refine ⟨fun hact => ?_, fun hact => ?_, fun s2 h1 h2 => by rw [h1, h2]⟩
  · cases act with
    | save t n u => simp [isSaveAct] at hact
    | noop => simp only [runStep]; split <;> rfl
    | prev => simp only [runStep]; split <;> rfl
    | next => simp only [runStep]; split <;> rfl
    | rand k => simp only [runStep]; split <;> rfl
    | toggleBm => simp only [runStep]; split <;> rfl
    | exportAnns => simp only [runStep]; split <;> rfl
  · cases act with
    | toggleBm => simp [isToggleAct] at hact
    | noop => simp only [runStep]; split <;> rfl
    | prev => simp only [runStep]; split <;> rfl
    | next => simp only [runStep]; split <;> rfl
    | rand k => simp only [runStep]; split <;> rfl
    | save t n u => simp only [runStep]; split <;> rfl
    | exportAnns => simp only [runStep]; split <;> rfl

/-- C10 witness: a plain rerun (no button pressed) leaves annotations and
bookmarks untouched. -/
theorem C10_filter_evaluation_read_only_witness :
    (runStep exData exWidgets .noop exState).state.annotations = exState.annotations ∧
    (runStep exData exWidgets .noop exState).state.bookmarks = exState.bookmarks :=
  ⟨(C10_filter_evaluation_read_only exData exWidgets .noop exState).1 rfl,
   (C10_filter_evaluation_read_only exData exWidgets .noop exState).2.1 rfl⟩

end TweetViewer
